import Mathlib

/-!
Verification of the ADIZ event-response analysis engine (baseline windowing,
aggregate analyzers and the reactive-vs-preplanned classifier) against its
natural-language specification.

Modelling conventions, chosen once for the whole development:

* Calendar dates are epoch-day integers (`ℤ`).  The source keeps dates as
  `YYYY-MM-DD` strings and `Date` objects at UTC midnight; formatting is a
  bijection between the two, `addDays` is integer addition and `daysDiff`
  (a floor of an exact millisecond quotient) is integer subtraction, so the
  integer model is exact.  Lexicographic comparison of ISO date strings
  coincides with the numeric order of epoch days.
* Counts and scores are exact rationals (`ℚ`).  The source computes in IEEE
  doubles; every constant appearing in the scoring rules is decimal and is
  modelled by the exact rational it denotes.  Divisions by zero, which in the
  source produce `Infinity`/`NaN`, produce `0` in `ℚ`; every property proved
  below either holds in both semantics or is evaluated at inputs whose
  denominators are nonzero.
* A JavaScript value that may be `null` or `undefined` is an `Option`;
  the source code under study checks the two interchangeably
  (`!== null && !== undefined`), so one `none` models both.
* `Math.sqrt` has no exact rational counterpart.  The only place a square
  root feeds back into logic is the persistence threshold
  `baselineMean + baselineStdDev`; the comparison `count > mean + sqrt(var)`
  is embedded by the algebraically equal test
  `mean < count ∧ var < (count - mean)^2` (valid since `var ≥ 0`).  Record
  fields that merely *store* a standard deviation for display are embedded as
  the variance (the radicand), named `stdDevSq`; no proved property reads
  them.
-/

namespace ADIZ

/-- The integers from `a` to `b` inclusive, in increasing order (empty when
`b < a`).  Models the source loops `for (d = start; d <= end; d = addDays(d,1))`. -/
def intRange (a b : ℤ) : List ℤ :=
  (List.range (b + 1 - a).toNat).map (fun i : ℕ => a + (i : ℤ))

/-- Insert into a sorted list, before the first element not strictly
smaller — the stable position. -/
def insertSorted {α : Type} (le : α → α → Bool) (x : α) : List α → List α
  | [] => [x]
  | y :: ys => if le x y then x :: y :: ys else y :: insertSorted le x ys

/-- A stable sort (insertion sort, structurally recursive), modelling the
stable `Array.prototype.sort(comparator)` of the source: for a total
preorder both produce the unique stable sorted permutation. -/
def sortBy {α : Type} (le : α → α → Bool) : List α → List α
  | [] => []
  | x :: xs => insertSorted le x (sortBy le xs)

/-- One point of a window slice: `{date, adiz_count, days_from_event}`. -/
structure WindowPoint where
  date : ℤ
  adiz_count : ℚ
  days_from_event : ℤ
deriving DecidableEq

/-- The baseline index: a date → count map; `none` models a date absent from
the underlying `Map`. -/
def BaselineMap := ℤ → Option ℚ

namespace Utils

/-- `getADIZCount`: `baselineMap.get(dateStr) || 0` — the stored count, or 0
when the date is absent (a stored 0 also yields 0, which coincides). -/
def getADIZCount (m : BaselineMap) (d : ℤ) : ℚ :=
  (m d).getD 0

/-- `getDateWindow(eventDate, windowSize)`: the dates from
`eventDate - windowSize` to `eventDate + windowSize` inclusive. -/
def getDateWindow (eventDate windowSize : ℤ) : List ℤ :=
  intRange (eventDate - windowSize) (eventDate + windowSize)

/-- `getWindowData`: maps the date window through the baseline index;
`days_from_event = daysDiff(eventDate, date) = date - eventDate`. -/
def getWindowData (eventDate windowSize : ℤ) (m : BaselineMap) : List WindowPoint :=
  (getDateWindow eventDate windowSize).map
    (fun d => { date := d, adiz_count := getADIZCount m d, days_from_event := d - eventDate })

/-- `Utils.mean`: sum divided by length, `0` on the empty list. -/
def mean (values : List ℚ) : ℚ :=
  if values.length = 0 then 0 else values.sum / values.length

/-- The radicand of `Utils.stdDev` (population variance): the mean of
squared deviations; `stdDev = sqrt` of this, `0` on the empty list. -/
def stdDevSq (values : List ℚ) : ℚ :=
  if values.length = 0 then 0 else mean (values.map (fun v => (v - mean values) ^ 2))

/-- `Utils.max`: `Math.max(...values)`, `0` on the empty list. -/
def max : List ℚ → ℚ
  | [] => 0
  | x :: xs => xs.foldl (fun a b => if a < b then b else a) x

/-- `Utils.min`: `Math.min(...values)`, `0` on the empty list. -/
def min : List ℚ → ℚ
  | [] => 0
  | x :: xs => xs.foldl (fun a b => if b < a then b else a) x

/-- The dates `getBaselineStats` iterates over: `baselineEnd = eventDate - 1`,
`baselineStart = baselineEnd - baselineDays`, both ends inclusive. -/
def baselineDates (eventDate baselineDays : ℤ) : List ℤ :=
  intRange (eventDate - 1 - baselineDays) (eventDate - 1)

/-- `BaselineStats` as returned by `getBaselineStats`; `stdDevSq` stores the
variance whose square root the source stores (see file header). -/
structure BaselineStats where
  mean : ℚ
  stdDevSq : ℚ
  max : ℚ
  min : ℚ
  count : ℕ
deriving DecidableEq

/-- `getBaselineStats(eventDate, baselineDays, baselineMap)`. -/
def getBaselineStats (eventDate baselineDays : ℤ) (m : BaselineMap) : BaselineStats :=
  let values := (baselineDates eventDate baselineDays).map (getADIZCount m)
  { mean := mean values, stdDevSq := stdDevSq values,
    max := max values, min := min values, count := values.length }

/-- The record returned by `getTimeToPeak`. -/
structure TimeToPeak where
  days : ℤ
  value : ℚ
  date : ℤ
deriving DecidableEq

/-- `getTimeToPeak`: among points with `days_from_event ≥ 0`, the first point
of maximal count (`reduce` keeps the incumbent on ties since the test is
strict); `none` when no such point exists. -/
def getTimeToPeak (windowData : List WindowPoint) : Option TimeToPeak :=
  match windowData.filter (fun d => 0 ≤ d.days_from_event) with
  | [] => none
  | p :: rest =>
    let m := rest.foldl (fun acc curr => if acc.adiz_count < curr.adiz_count then curr else acc) p
    some { days := m.days_from_event, value := m.adiz_count, date := m.date }

/-- The comparison `count > mean + sqrt(varSq)` used by the persistence
threshold, in exact form (equivalent for `varSq ≥ 0`). -/
def exceedsRootThreshold (mean varSq count : ℚ) : Bool :=
  decide (mean < count) && decide (varSq < (count - mean) ^ 2)

/-- `getPersistence(windowData, threshold)` at the only call site's threshold
`baselineMean + baselineStdDev`: the number of points with
`days_from_event ≥ 0` strictly above the threshold. -/
def getPersistence (windowData : List WindowPoint) (thMean thVarSq : ℚ) : ℕ :=
  (windowData.filter
    (fun d => decide (0 ≤ d.days_from_event) && exceedsRootThreshold thMean thVarSq d.adiz_count)).length

end Utils

/-! ### Calendar

`checkHardcodedSymbolicDates` reads the month and day-of-month of an event
date.  The proleptic Gregorian conversion from an epoch day (the inverse of
`days_from_civil`) is embedded below; `new Date(s).getMonth()+1` and
`.getDate()` agree with it at UTC. -/

/-- Year, month (1–12) and day (1–31) of an epoch-day number, proleptic
Gregorian calendar. -/
def civilFromDays (z : ℤ) : ℤ × ℕ × ℕ :=
  let z' : ℤ := z + 719468
  let era : ℤ := Int.ediv z' 146097
  let doe : ℕ := (z' - era * 146097).toNat
  let yoe : ℕ := (doe - doe / 1460 + doe / 36524 - doe / 146096) / 365
  let y : ℤ := (yoe : ℤ) + era * 400
  let doy : ℕ := doe - (365 * yoe + yoe / 4 - yoe / 100)
  let mp : ℕ := (5 * doy + 2) / 153
  let d : ℕ := doy - (153 * mp + 2) / 5 + 1
  let m : ℕ := if mp < 10 then mp + 3 else mp - 9
  (if mp < 10 then y else y + 1, m, d)

/-- The month (1–12) of an epoch day, `date.getMonth() + 1`. -/
def monthOf (z : ℤ) : ℕ :=
  (civilFromDays z).2.1

/-- The day-of-month of an epoch day, `date.getDate()`. -/
def dayOf (z : ℤ) : ℕ :=
  (civilFromDays z).2.2

/-! ### Event catalog and data connector -/

/-- A normalized catalog event (`{date, category, label, description, dataset}`;
the opaque `fields` copy of the raw record carries no further information used
by the analyzers and is omitted). -/
structure Event where
  date : ℤ
  category : String
  label : String
  description : String
  dataset : String
deriving DecidableEq

/-- `getEvents` filters.  The `year` and `customFilter` criteria of the source
are exercised by no analyzer under verification and are omitted.  A `none`
field models an absent (hence falsy, hence skipped) filter. -/
structure Filters where
  category : Option String
  startDate : Option ℤ
  endDate : Option ℤ
  dataset : Option String
deriving DecidableEq

/-- The no-op filter object `{}`. -/
def noFilters : Filters := ⟨none, none, none, none⟩

/-- The session state built by a successful load: the baseline index and the
normalized, date-sorted event catalog. -/
structure LoadedData where
  baselineMap : BaselineMap
  eventIndex : List Event

/-- The category step of `getEvents`: skipped when absent, `'all'`, or empty
(falsy in the source). -/
def applyCategoryFilter (f : Filters) (l : List Event) : List Event :=
  match f.category with
  | none => l
  | some c => if c = "all" ∨ c = "" then l else l.filter (fun e => e.category = c)

/-- The start-date step of `getEvents`. -/
def applyStartFilter (f : Filters) (l : List Event) : List Event :=
  match f.startDate with
  | none => l
  | some st => l.filter (fun e => st ≤ e.date)

/-- The end-date step of `getEvents`. -/
def applyEndFilter (f : Filters) (l : List Event) : List Event :=
  match f.endDate with
  | none => l
  | some t => l.filter (fun e => e.date ≤ t)

/-- The dataset step of `getEvents`: skipped when absent or empty. -/
def applyDatasetFilter (f : Filters) (l : List Event) : List Event :=
  match f.dataset with
  | none => l
  | some ds => if ds = "" then l else l.filter (fun e => e.dataset = ds)

/-- `DataConnector.getEvents(filters)`: the source's sequence of conjunctive
reassignments of `filtered`. -/
def getEvents (d : LoadedData) (f : Filters) : List Event :=
  applyDatasetFilter f (applyEndFilter f (applyStartFilter f (applyCategoryFilter f d.eventIndex)))

/-- `getEventsInWindow(centerDate, windowSize)`: date-range query between the
first and last window dates.  On an empty window the source reads
`dates[0]`/`dates[last]` as `undefined`, which makes both range filters falsy
and hence skipped — modelled by `head?`/`getLast?`. -/
def getEventsInWindow (d : LoadedData) (centerDate windowSize : ℤ) : List Event :=
  let dates := Utils.getDateWindow centerDate windowSize
  getEvents d { category := none, startDate := dates.head?, endDate := dates.getLast?, dataset := none }

end ADIZ

namespace ADIZ

/-! ### Reactive/pre-planned classifier — signal records

Presentation-only `explanation` strings (and the narrative `summary`) are
omitted from the records; every branch-discriminating and numeric field is
kept.  A field the source leaves `undefined` on some branch is an `Option`. -/

/-- Signal 1 result: `{responseTime, category, reactiveScore}`. -/
structure TemporalSignal where
  responseTime : Option ℤ
  category : String
  reactiveScore : Option ℚ
deriving DecidableEq

/-- `analyzeTemporalProximity(windowData)`. -/
def analyzeTemporalProximity (windowData : List WindowPoint) : TemporalSignal :=
  match Utils.getTimeToPeak windowData with
  | none => { responseTime := none, category := "unknown", reactiveScore := some 0 }
  | some t =>
    let days := t.days
    if 0 ≤ days ∧ days ≤ 2 then
      { responseTime := some days, category := "immediate", reactiveScore := some 0.9 }
    else if 3 ≤ days ∧ days ≤ 9 then
      { responseTime := some days, category := "delayed", reactiveScore := some 0.5 }
    else
      { responseTime := some days, category := "very_delayed", reactiveScore := some 0.5 }

/-- Signal 2 result: `{trend, slope, avgPreEvent, baseline, reactiveScore}`
(the numeric fields are absent on the insufficient-data branch). -/
structure BuildupSignal where
  trend : String
  slope : Option ℚ
  avgPreEvent : Option ℚ
  baseline : Option ℚ
  reactiveScore : Option ℚ
deriving DecidableEq

/-- `calculateTrendSlope(data)`: ordinary least-squares slope of
`adiz_count` against the sequence index `0, 1, …`. -/
def calculateTrendSlope (data : List WindowPoint) : ℚ :=
  let n : ℚ := data.length
  let x : List ℚ := (List.range data.length).map (fun i => (i : ℚ))
  let y : List ℚ := data.map (fun d => d.adiz_count)
  let sumX := x.sum
  let sumY := y.sum
  let sumXY := ((x.zip y).map (fun p => p.1 * p.2)).sum
  let sumXX := (x.map (fun xi => xi * xi)).sum
  (n * sumXY - sumX * sumY) / (n * sumXX - sumX * sumX)

/-- `analyzePreEventBuildup(windowData, baselineStats)`: days −14 to −1,
sorted by offset (a stable sort; the window is already offset-sorted). -/
def analyzePreEventBuildup (windowData : List WindowPoint) (baselineStats : Utils.BaselineStats) :
    BuildupSignal :=
  let preEventData := sortBy (fun a b => a.days_from_event ≤ b.days_from_event)
    (windowData.filter
      (fun d => decide (d.days_from_event < 0) && decide (-14 ≤ d.days_from_event)))
  if preEventData.length < 5 then
    { trend := "insufficient_data", slope := none, avgPreEvent := none, baseline := none,
      reactiveScore := some 0.5 }
  else
    let values := preEventData.map (fun d => d.adiz_count)
    let mean := Utils.mean values
    let slope := calculateTrendSlope preEventData
    let avgPreEvent := mean
    let baseline := baselineStats.mean
    let isRising := 2 < slope
    let isElevated := baseline * 1.2 < avgPreEvent
    if isRising ∧ isElevated then
      { trend := "rising", slope := some slope, avgPreEvent := some avgPreEvent,
        baseline := some baseline, reactiveScore := some 0.2 }
    else if isElevated then
      { trend := "elevated", slope := some slope, avgPreEvent := some avgPreEvent,
        baseline := some baseline, reactiveScore := some 0.4 }
    else
      { trend := "normal", slope := some slope, avgPreEvent := some avgPreEvent,
        baseline := some baseline, reactiveScore := some 0.8 }

/-- Signal 3 result: `{thisPeak, avgSimilarPeak, ratio, temporalDays,
comparison, reactiveScore}` (numeric fields absent on the insufficient-data
branch; `reactiveScore` absent on the typical branch, see below). -/
structure MagnitudeSignal where
  thisPeak : Option ℚ
  avgSimilarPeak : Option ℚ
  ratio : Option ℚ
  temporalDays : Option ℤ
  comparison : String
  reactiveScore : Option ℚ
deriving DecidableEq

/-- `temporalDays !== null && temporalDays <= k`. -/
def tdWithin (temporalDays : Option ℤ) (k : ℤ) : Bool :=
  match temporalDays with
  | some td => td ≤ k
  | none => false

/-- `analyzeMagnitude(event, windowData, baselineStats, temporalDays)`.

The comparison set is `getEvents({category: event.category})` — the whole
same-category slice of the catalog, the classified event included; the first
20 of them are scanned, each peak taken over a fixed ±14-day window, and
zero peaks are dropped before averaging.

On the typical branch the source reads `reactiveScore: 0.5;` — a labelled
expression statement, not an assignment — so `reactiveScore` is left
`undefined` there, embedded as `none`. -/
def analyzeMagnitude (d : LoadedData) (event : Event) (windowData : List WindowPoint)
    (_baselineStats : Utils.BaselineStats) (temporalDays : Option ℤ) : MagnitudeSignal :=
  let similarEvents := getEvents d { noFilters with category := some event.category }
  if similarEvents.length < 3 then
    { thisPeak := none, avgSimilarPeak := none, ratio := none, temporalDays := none,
      comparison := "insufficient_data", reactiveScore := some 0.5 }
  else
    let thisPeak := Utils.max (windowData.map (fun p => p.adiz_count))
    let similarPeaks :=
      (((similarEvents.take 20).map
          (fun e => Utils.max ((Utils.getWindowData e.date 14 d.baselineMap).map
            (fun p => p.adiz_count)))).filter (fun p => 0 < p))
    let avgSimilarPeak := Utils.mean similarPeaks
    let ratio := thisPeak / avgSimilarPeak
    if 2.5 < ratio ∧ tdWithin temporalDays 3 = true then
      { thisPeak := some thisPeak, avgSimilarPeak := some avgSimilarPeak, ratio := some ratio,
        temporalDays := temporalDays, comparison := "much_larger_immediate",
        reactiveScore := some 0.95 }
    else if 2 < ratio ∧ tdWithin temporalDays 5 = true then
      { thisPeak := some thisPeak, avgSimilarPeak := some avgSimilarPeak, ratio := some ratio,
        temporalDays := temporalDays, comparison := "large_near_immediate",
        reactiveScore := some 0.85 }
    else if 2.5 < ratio then
      { thisPeak := some thisPeak, avgSimilarPeak := some avgSimilarPeak, ratio := some ratio,
        temporalDays := temporalDays, comparison := "much_larger", reactiveScore := some 0.7 }
    else if 1.5 < ratio then
      { thisPeak := some thisPeak, avgSimilarPeak := some avgSimilarPeak, ratio := some ratio,
        temporalDays := temporalDays, comparison := "larger", reactiveScore := some 0.6 }
    else
      { thisPeak := some thisPeak, avgSimilarPeak := some avgSimilarPeak, ratio := some ratio,
        temporalDays := temporalDays, comparison := "typical", reactiveScore := none }

/-- Signal 4 result: `{isSymbolic, classification, symbolicDate,
reactiveScore}` (each optional field set on some branches only). -/
structure SymbolicSignal where
  isSymbolic : Bool
  classification : Option String
  symbolicDate : Option String
  reactiveScore : Option ℚ
deriving DecidableEq

/-- The fixed `SYMBOLIC_DATES` table: `(month, day, name)`.  Apostrophes in
the display names are elided (they carry no logic). -/
def SYMBOLIC_DATES : List (ℕ × ℕ × String) :=
  [ (10, 10, "Double Ten Day (ROC National Day)"),
    (1, 1, "New Years Day"),
    (5, 20, "Taiwan Presidential Inauguration"),
    (7, 1, "CCP Founding Day"),
    (10, 1, "PRC National Day"),
    (12, 10, "Human Rights Day") ]

/-- `checkHardcodedSymbolicDates(eventDate)`: finds the first table entry with
`|month*100+day − sdMonth*100+sdDay| ≤ 2 || ≥ 98` (the source's literal
test). -/
def checkHardcodedSymbolicDates (eventDate : ℤ) : SymbolicSignal :=
  let month := monthOf eventDate
  let day := dayOf eventDate
  match SYMBOLIC_DATES.find? (fun sd =>
      let diff := ((month * 100 + day : ℤ) - (sd.1 * 100 + sd.2.1 : ℤ)).natAbs
      decide (diff ≤ 2) || decide (98 ≤ diff)) with
  | some sd =>
    { isSymbolic := true, classification := none, symbolicDate := some sd.2.2,
      reactiveScore := some 0.3 }
  | none =>
    { isSymbolic := false, classification := none, symbolicDate := none,
      reactiveScore := some 0.5 }

/-- The keyword classifier applied to the closest political event's combined
text, returning `(classification, reactiveScore)`. -/
def classifyPoliticalText (combinedText : String) : String × ℚ :=
  if combinedText.containsSubstr "exercise" || combinedText.containsSubstr "drill" ||
      combinedText.containsSubstr "maneuver" then
    ("reactive_to_exercise", 0.7)
  else if combinedText.containsSubstr "election" || combinedText.containsSubstr "vote" then
    ("preplanned_election", 0.2)
  else if combinedText.containsSubstr "congress" || combinedText.containsSubstr "ccp" ||
      combinedText.containsSubstr "party" then
    ("preplanned_congress", 0.25)
  else if combinedText.containsSubstr "inauguration" || combinedText.containsSubstr "10-10" ||
      combinedText.containsSubstr "double ten" || combinedText.containsSubstr "national day" then
    ("preplanned_symbolic", 0.2)
  else if combinedText.containsSubstr "lunar" || combinedText.containsSubstr "new year" ||
      combinedText.containsSubstr "spring festival" then
    ("preplanned_holiday", 0.3)
  else
    ("ambiguous_political", 0.4)

/-- `analyzeSymbolicTiming(eventDate)`: political-category events within 15
days take precedence; with none in the catalog the hardcoded table is the
fallback.

When a nearby political event exists, the source builds the matched text from
`closest.event_type` and `closest.event_name`/`closest.short_label` — raw-record
fields that the *normalized* catalog event does not carry — so the combined
text is always the single space `" "`, every keyword test is false, and the
ambiguous branch (score 0.4) always fires.  The keyword chain is embedded
above and applied to that text. -/
def analyzeSymbolicTiming (d : LoadedData) (eventDate : ℤ) : SymbolicSignal :=
  let politicalEvents := getEvents d { noFilters with category := some "political" }
  if politicalEvents.length = 0 then
    checkHardcodedSymbolicDates eventDate
  else
    let nearbyEvents := politicalEvents.filter (fun pe => (eventDate - pe.date).natAbs ≤ 15)
    if nearbyEvents.length = 0 then
      { isSymbolic := false, classification := none, symbolicDate := none,
        reactiveScore := some 0.5 }
    else
      let _sorted := sortBy
        (fun a b => (eventDate - a.date).natAbs ≤ (eventDate - b.date).natAbs) nearbyEvents
      let combinedText := " "
      let r := classifyPoliticalText combinedText
      { isSymbolic := true, classification := some r.1, symbolicDate := none,
        reactiveScore := some r.2 }

/-- Signal 5 result: `{pattern, sharpness, decayRate, sustained,
reactiveScore}`. -/
structure PatternSignal where
  pattern : String
  sharpness : ℚ
  decayRate : ℚ
  sustained : Bool
  reactiveScore : Option ℚ
deriving DecidableEq

/-- `isSustained(windowData)`: over post-event days 1–7 (at least 5 present),
whether ≥ 60% of the days are within 80% of the post-event peak. -/
def isSustained (windowData : List WindowPoint) : Bool :=
  let postEvent := windowData.filter
    (fun d => decide (0 < d.days_from_event) && decide (d.days_from_event ≤ 7))
  if postEvent.length < 5 then false
  else
    let values := postEvent.map (fun d => d.adiz_count)
    let peak := Utils.max values
    let highDays := (values.filter (fun v => peak * 0.8 ≤ v)).length
    decide ((values.length : ℚ) * 0.6 ≤ (highDays : ℚ))

/-- `analyzePattern(windowData)`: shape of the response curve.  `sharpness`
and `decayRate` are quotients; at a zero denominator the source computes
`Infinity`/`NaN` where `ℚ` yields 0 — see the file header. -/
def analyzePattern (windowData : List WindowPoint) : PatternSignal :=
  let values := windowData.map (fun d => d.adiz_count)
  let peak := Utils.max values
  let peakIndex := values.findIdx (fun v => v = peak)
  let preEventMean := Utils.mean (values.take (values.length / 2))
  let sharpness := peak / preEventMean
  let postPeakValues := (values.take (Nat.min (peakIndex + 8) values.length)).drop (peakIndex + 1)
  let decayRate := if postPeakValues.length ≠ 0 then (peak - Utils.mean postPeakValues) / peak else 0
  let sustained := isSustained windowData
  if 2.5 < sharpness ∧ 0.6 < decayRate ∧ sustained = false then
    { pattern := "sharp_spike_rapid_decay", sharpness := sharpness, decayRate := decayRate,
      sustained := sustained, reactiveScore := some 0.95 }
  else if 2.5 < sharpness ∧ 0.4 < decayRate ∧ sustained = false then
    { pattern := "sharp_spike_moderate_decay", sharpness := sharpness, decayRate := decayRate,
      sustained := sustained, reactiveScore := some 0.85 }
  else if 2.5 < sharpness ∧ sustained = false then
    { pattern := "sharp_spike", sharpness := sharpness, decayRate := decayRate,
      sustained := sustained, reactiveScore := some 0.70 }
  else if sustained = true then
    { pattern := "sustained", sharpness := sharpness, decayRate := decayRate,
      sustained := sustained, reactiveScore := some 0.25 }
  else
    { pattern := "gradual", sharpness := sharpness, decayRate := decayRate,
      sustained := sustained, reactiveScore := some 0.5 }

/-! ### Weighted combination and verdict -/

/-- The five signal records of one classification. -/
structure Signals where
  temporal : TemporalSignal
  buildup : BuildupSignal
  magnitude : MagnitudeSignal
  symbolic : SymbolicSignal
  pattern : PatternSignal
deriving DecidableEq

/-- A weight vector over the five signals. -/
structure Weights where
  temporal : ℚ
  buildup : ℚ
  magnitude : ℚ
  symbolic : ℚ
  pattern : ℚ
deriving DecidableEq

/-- The base weights. -/
def baseWeights : Weights := ⟨0.35, 0.25, 0.20, 0.10, 0.10⟩

/-- The override fired by a sharp-spike-rapid-decay pattern. -/
def spikeWeights : Weights := ⟨0.30, 0.20, 0.25, 0.05, 0.20⟩

/-- The override fired by a compound magnitude-temporal comparison. -/
def compoundWeights : Weights := ⟨0.30, 0.20, 0.30, 0.10, 0.10⟩

/-- The weight-vector selection inlined at the top of
`calculateClassification`. -/
def selectWeights (signals : Signals) : Weights :=
  if signals.pattern.pattern = "sharp_spike_rapid_decay" then spikeWeights
  else if signals.magnitude.comparison = "much_larger_immediate" ∨
      signals.magnitude.comparison = "large_near_immediate" then compoundWeights
  else baseWeights

/-- The `(reactiveScore, weight)` pairs in the source's iteration order
(object-key insertion order: temporal, buildup, magnitude, symbolic,
pattern). -/
def signalEntries (signals : Signals) (w : Weights) : List (Option ℚ × ℚ) :=
  [ (signals.temporal.reactiveScore, w.temporal),
    (signals.buildup.reactiveScore, w.buildup),
    (signals.magnitude.reactiveScore, w.magnitude),
    (signals.symbolic.reactiveScore, w.symbolic),
    (signals.pattern.reactiveScore, w.pattern) ]

/-- The `forEach` accumulation of `(totalScore, totalWeight)`: a signal whose
score is `null`/`undefined` contributes to neither total. -/
def accumulate (entries : List (Option ℚ × ℚ)) : ℚ × ℚ :=
  entries.foldl
    (fun acc e => match e.1 with
      | some r => (acc.1 + r * e.2, acc.2 + e.2)
      | none => acc)
    (0, 0)

/-- The classification record (`summary` narrative omitted; `weights` kept so
the dynamic adjustment is visible, as in the source). -/
structure Classification where
  verdict : String
  confidence : String
  reactiveScore : ℚ
  prePlannedScore : ℚ
  weights : Weights
deriving DecidableEq

/-- `calculateClassification(signals)`. -/
def calculateClassification (signals : Signals) : Classification :=
  let weights := selectWeights signals
  let acc := accumulate (signalEntries signals weights)
  let reactiveScore := acc.1 / acc.2
  if 0.65 ≤ reactiveScore then
    { verdict := "reactive", confidence := if 0.8 ≤ reactiveScore then "high" else "medium",
      reactiveScore := reactiveScore, prePlannedScore := 1 - reactiveScore, weights := weights }
  else if reactiveScore ≤ 0.35 then
    { verdict := "pre-planned", confidence := if reactiveScore ≤ 0.2 then "high" else "medium",
      reactiveScore := reactiveScore, prePlannedScore := 1 - reactiveScore, weights := weights }
  else
    { verdict := "mixed", confidence := "low",
      reactiveScore := reactiveScore, prePlannedScore := 1 - reactiveScore, weights := weights }

/-- The record returned (and cached) by `classify`. -/
structure ReactiveAnalysis where
  event : Event
  windowSize : ℤ
  windowData : List WindowPoint
  baselineStats : Utils.BaselineStats
  signals : Signals
  classification : Classification
deriving DecidableEq

/-- `options.windowSize || 21`: absent or zero (falsy) yields the default. -/
def resolveWindowSize (options : Option ℤ) : ℤ :=
  match options with
  | none => 21
  | some w => if w = 0 then 21 else w

/-- `PreplannedReactive.classify(event, options)` over an explicit connector
state (`none` = no data loaded, in which place the source throws).

The source passes `this.analyzeTemporalProximity(windowData).days` as the
magnitude signal's `temporalDays`; the temporal record has no `days` field
(it is named `responseTime`), so the argument is `undefined` and the
parameter falls back to its declared default `null` — embedded as `none`.
The compound magnitude branches are therefore unreachable from `classify`. -/
def classify (st : Option LoadedData) (event : Event) (options : Option ℤ) :
    Except String ReactiveAnalysis :=
  match st with
  | none => .error "Data not loaded"
  | some d =>
    let windowSize := resolveWindowSize options
    let windowData := Utils.getWindowData event.date windowSize d.baselineMap
    let baselineStats := Utils.getBaselineStats event.date 30 d.baselineMap
    let signals : Signals :=
      { temporal := analyzeTemporalProximity windowData,
        buildup := analyzePreEventBuildup windowData baselineStats,
        magnitude := analyzeMagnitude d event windowData baselineStats none,
        symbolic := analyzeSymbolicTiming d event.date,
        pattern := analyzePattern windowData }
    .ok { event := event, windowSize := windowSize, windowData := windowData,
          baselineStats := baselineStats, signals := signals,
          classification := calculateClassification signals }

end ADIZ

namespace ADIZ

/-! ### Single-event analyzer -/

/-- The post-event window statistics of `SingleEventAnalyzer.analyze`
(`stdDevSq` stores the variance, see file header). -/
structure WindowStats where
  mean : ℚ
  max : ℚ
  min : ℚ
  stdDevSq : ℚ
deriving DecidableEq

/-- The single-event analysis record.  `meanDeltaPercent` is `none` where the
source reports the string `'N/A'` (baseline mean not positive); the stored
display `threshold` is `baselineMean + sqrt(baselineVar)` in the source and is
sqrt-valued, so only its exact ingredients (already in `baseline`) and the
`persistence` computed from it are kept. -/
structure SingleAnalysis where
  event : Event
  eventDate : ℤ
  windowSize : ℤ
  windowData : List WindowPoint
  baselineDays : ℤ
  baselineStats : Utils.BaselineStats
  windowStats : WindowStats
  meanDelta : ℚ
  meanDeltaPercent : Option ℚ
  timeToPeak : Option Utils.TimeToPeak
  persistence : ℕ
  confounders : List Event
deriving DecidableEq

namespace SingleEventAnalyzer

/-- `SingleEventAnalyzer.analyze(event, options)` over an explicit connector
state; window and baseline sizes are passed resolved (source defaults 7 and
30 via `||`). -/
def analyze (st : Option LoadedData) (event : Event) (windowSize baselineDays : ℤ) :
    Except String SingleAnalysis :=
  match st with
  | none => .error "Data not loaded"
  | some d =>
    let windowData := Utils.getWindowData event.date windowSize d.baselineMap
    let baselineStats := Utils.getBaselineStats event.date baselineDays d.baselineMap
    let windowValues := (windowData.filter (fun p => 0 ≤ p.days_from_event)).map
      (fun p => p.adiz_count)
    let windowStats : WindowStats :=
      { mean := Utils.mean windowValues, max := Utils.max windowValues,
        min := Utils.min windowValues, stdDevSq := Utils.stdDevSq windowValues }
    let meanDelta := windowStats.mean - baselineStats.mean
    let meanDeltaPercent : Option ℚ :=
      if 0 < baselineStats.mean then some (meanDelta / baselineStats.mean * 100) else none
    let timeToPeak := Utils.getTimeToPeak windowData
    let persistence := Utils.getPersistence windowData baselineStats.mean baselineStats.stdDevSq
    let confounders := (getEventsInWindow d event.date windowSize).filter
      (fun e => decide (e.date ≠ event.date) || decide (e.label ≠ event.label))
    .ok { event := event, eventDate := event.date, windowSize := windowSize,
          windowData := windowData, baselineDays := baselineDays,
          baselineStats := baselineStats, windowStats := windowStats,
          meanDelta := meanDelta, meanDeltaPercent := meanDeltaPercent,
          timeToPeak := timeToPeak, persistence := persistence, confounders := confounders }

/-- `findIndex`: first matching index, `-1` when none matches. -/
def jsFindIndex (l : List WindowPoint) (p : WindowPoint → Bool) : ℤ :=
  match l.findIdx? p with
  | some i => (i : ℤ)
  | none => -1

/-- The chart projection (`threshold` display value omitted, sqrt-valued). -/
structure ChartData where
  x : List ℤ
  y : List ℚ
  event_date : ℤ
  event_index : ℤ
deriving DecidableEq

/-- `getChartData()`: `null` until an analysis has run. -/
def getChartData (cache : Option SingleAnalysis) : Option ChartData :=
  match cache with
  | none => none
  | some a =>
    some { x := a.windowData.map (fun p => p.date),
           y := a.windowData.map (fun p => p.adiz_count),
           event_date := a.eventDate,
           event_index := jsFindIndex a.windowData (fun p => p.date = a.eventDate) }

/-- The summary-card projection, with its numbers kept exact (the source
applies `toFixed` display formatting on top of these values). -/
structure SummaryCard where
  label : String
  date : ℤ
  category : String
  description : String
  baselineMean : ℚ
  windowMean : ℚ
  delta : ℚ
  deltaPercent : Option ℚ
  maxSpike : ℚ
  timeToPeakDays : Option ℤ
  persistence : ℕ
  confounders : ℕ
deriving DecidableEq

/-- `getSummaryCard()`: `null` until an analysis has run. -/
def getSummaryCard (cache : Option SingleAnalysis) : Option SummaryCard :=
  match cache with
  | none => none
  | some a =>
    some { label := a.event.label, date := a.eventDate, category := a.event.category,
           description := a.event.description, baselineMean := a.baselineStats.mean,
           windowMean := a.windowStats.mean, delta := a.meanDelta,
           deltaPercent := a.meanDeltaPercent, maxSpike := a.windowStats.max,
           timeToPeakDays := a.timeToPeak.map (fun t => t.days),
           persistence := a.persistence, confounders := a.confounders.length }

/-- `getConfounders()`: the source returns the *empty array* (not `null`)
until an analysis has run. -/
def getConfounders (cache : Option SingleAnalysis) : Option (List Event) :=
  match cache with
  | none => some []
  | some a => some a.confounders

end SingleEventAnalyzer

/-! ### Aggregate analyzers (category and A/B) -/

/-- One event's row in an aggregate analysis. -/
structure EventAnalysis where
  event : Event
  windowData : List WindowPoint
  baseline : Utils.BaselineStats
  peak : ℚ
  timeToPeak : Option ℤ
  avg7DaySpike : ℚ
  delta : ℚ
deriving DecidableEq

/-- The per-event computation shared verbatim by `CategoryAnalyzer.analyze`
and `ABCompare.analyzeGroup` (both modules inline the identical code). -/
def analyzeOneEvent (d : LoadedData) (windowSize : ℤ) (event : Event) : EventAnalysis :=
  let windowData := Utils.getWindowData event.date windowSize d.baselineMap
  let baselineStats := Utils.getBaselineStats event.date 30 d.baselineMap
  let postEventValues := (windowData.filter
      (fun p => decide (0 < p.days_from_event) && decide (p.days_from_event ≤ 7))).map
    (fun p => p.adiz_count)
  let avg7DaySpike := if postEventValues.length ≠ 0 then Utils.mean postEventValues else 0
  let peak := Utils.max (windowData.map (fun p => p.adiz_count))
  let timeToPeak := Utils.getTimeToPeak windowData
  { event := event, windowData := windowData, baseline := baselineStats, peak := peak,
    timeToPeak := timeToPeak.map (fun t => t.days), avg7DaySpike := avg7DaySpike,
    delta := avg7DaySpike - baselineStats.mean }

/-- The counts of one event at one offset, as gathered by the per-offset
loops: the first window point at that offset, if any. -/
def valuesAtOffset (analyses : List EventAnalysis) (offset : ℤ) : List ℚ :=
  analyses.filterMap
    (fun a => (a.windowData.find? (fun p => p.days_from_event = offset)).map
      (fun p => p.adiz_count))

/-- One point of an average response curve (`stdDevSq` stores the variance;
the stored `upperBound`/`lowerBound` are `mean ± sqrt` of it, clamped, and are
sqrt-valued display fields). -/
structure CurvePoint where
  offset : ℤ
  mean : ℚ
  stdDevSq : ℚ
  count : ℕ
deriving DecidableEq

/-- `calculateAverageResponseCurve` / `calculateAverageCurve`: one point per
offset in `[-windowSize, windowSize]` having at least one contributing
event. -/
def calculateAverageResponseCurve (analyses : List EventAnalysis) (windowSize : ℤ) :
    List CurvePoint :=
  (intRange (-windowSize) windowSize).filterMap
    (fun offset =>
      let vals := valuesAtOffset analyses offset
      if vals.length = 0 then none
      else some { offset := offset, mean := Utils.mean vals, stdDevSq := Utils.stdDevSq vals,
                  count := vals.length })

/-- The `maxSpikeDay`/`maxSpikeValue` scan: offsets 1..windowSize left to
right, strict improvement, initial `(0, 0)`. -/
def findMaxSpike (analyses : List EventAnalysis) (windowSize : ℤ) : ℤ × ℚ :=
  (intRange 1 windowSize).foldl
    (fun acc offset =>
      let vals := valuesAtOffset analyses offset
      if vals.length ≠ 0 ∧ acc.2 < Utils.mean vals then (offset, Utils.mean vals) else acc)
    (0, 0)

/-- `median(values)`: midpoint of the ascending sort, `0` on the empty
list. -/
def median (values : List ℚ) : ℚ :=
  if values.length = 0 then 0
  else
    let sorted := sortBy (fun a b => a ≤ b) values
    let mid := values.length / 2
    if values.length % 2 = 0 then (sorted.getD (mid - 1) 0 + sorted.getD mid 0) / 2
    else sorted.getD mid 0

namespace CategoryAnalyzer

/-- The category summary statistics (raw values; `avgPeakVarSq` is the
variance whose square root the source stores as `avgPeakStdDev`). -/
structure Summary where
  avgPeak : ℚ
  avgPeakVarSq : ℚ
  avg7DaySpike : ℚ
  avgDelta : ℚ
  medianPeak : ℚ
  maxPeak : ℚ
  minPeak : ℚ
  avgTimeToPeak : Option ℚ
  maxSpikeDay : ℤ
  maxSpikeValue : ℚ
  avgBaseline : ℚ
  avgIncrease : ℚ
deriving DecidableEq

/-- The cached category-analysis record. -/
structure CategoryAnalysis where
  filters : Filters
  eventCount : ℕ
  windowSize : ℤ
  avgCurve : List CurvePoint
  eventAnalyses : List EventAnalysis
  summary : Summary
  topEvents : List EventAnalysis
  bottomEvents : List EventAnalysis
deriving DecidableEq

/-- `CategoryAnalyzer.analyze(categoryFilters, options)` over an explicit
connector state; throws on no data, then on an empty filter result. -/
def analyze (st : Option LoadedData) (filters : Filters) (windowSize : ℤ) :
    Except String CategoryAnalysis :=
  match st with
  | none => .error "Data not loaded"
  | some d =>
    let events := getEvents d filters
    if events.length = 0 then
      .error "No events match these filters. Try different filter combination."
    else
      let eventAnalyses := events.map (analyzeOneEvent d windowSize)
      let allPeaks := eventAnalyses.map (fun a => a.peak)
      let all7DaySpikes := eventAnalyses.map (fun a => a.avg7DaySpike)
      let allDeltas := eventAnalyses.map (fun a => a.delta)
      let allTimeToPeak := (eventAnalyses.filterMap (fun a => a.timeToPeak)).map
        (fun t => (t : ℚ))
      let avgTimeToPeak := if allTimeToPeak.length ≠ 0 then some (Utils.mean allTimeToPeak)
        else none
      let avgBaseline := Utils.mean (eventAnalyses.map (fun a => a.baseline.mean))
      let avgPostEventADIZ := Utils.mean all7DaySpikes
      let avgIncrease := avgPostEventADIZ - avgBaseline
      let maxSpike := findMaxSpike eventAnalyses windowSize
      let avgCurve := calculateAverageResponseCurve eventAnalyses windowSize
      let sortedByPeak := sortBy (fun a b => b.peak ≤ a.peak) eventAnalyses
      .ok { filters := filters, eventCount := events.length, windowSize := windowSize,
            avgCurve := avgCurve, eventAnalyses := eventAnalyses,
            summary :=
              { avgPeak := Utils.mean allPeaks, avgPeakVarSq := Utils.stdDevSq allPeaks,
                avg7DaySpike := Utils.mean all7DaySpikes, avgDelta := Utils.mean allDeltas,
                medianPeak := median allPeaks, maxPeak := Utils.max allPeaks,
                minPeak := Utils.min allPeaks, avgTimeToPeak := avgTimeToPeak,
                maxSpikeDay := maxSpike.1, maxSpikeValue := maxSpike.2,
                avgBaseline := avgBaseline, avgIncrease := avgIncrease },
            topEvents := sortedByPeak.take 5,
            bottomEvents := (sortedByPeak.drop (sortedByPeak.length - 5)).reverse }

/-- The chart projection of the average curve (bound arrays are sqrt-valued
display fields, omitted). -/
structure AverageCurveData where
  offsets : List ℤ
  mean : List ℚ
deriving DecidableEq

/-- `getAverageCurveData()`: `null` until an analysis has run. -/
def getAverageCurveData (cache : Option CategoryAnalysis) : Option AverageCurveData :=
  match cache with
  | none => none
  | some a => some { offsets := a.avgCurve.map (fun p => p.offset),
                     mean := a.avgCurve.map (fun p => p.mean) }

/-- One per-event overlay trace. -/
structure OverlayTrace where
  x : List ℤ
  y : List ℚ
  label : String
deriving DecidableEq

/-- `getEventOverlayData()`: `null` until an analysis has run. -/
def getEventOverlayData (cache : Option CategoryAnalysis) : Option (List OverlayTrace) :=
  match cache with
  | none => none
  | some a =>
    some (a.eventAnalyses.map (fun an =>
      let pts := (intRange (-a.windowSize) a.windowSize).filterMap
        (fun offset => an.windowData.find? (fun p => p.days_from_event = offset))
      { x := pts.map (fun p => p.days_from_event), y := pts.map (fun p => p.adiz_count),
        label := an.event.label }))

/-- `getSummary()`: `null` until an analysis has run (the source then formats
the summary record for display; the raw record is returned here). -/
def getSummary (cache : Option CategoryAnalysis) : Option (ℕ × Summary) :=
  match cache with
  | none => none
  | some a => some (a.eventCount, a.summary)

/-- One row of the top/bottom-events tables (raw values). -/
structure RankedEvent where
  date : ℤ
  label : String
  peak : ℚ
  avg7Day : ℚ
  delta : ℚ
deriving DecidableEq

/-- `getTopEvents()`: the source returns the *empty array* (not `null`) until
an analysis has run. -/
def getTopEvents (cache : Option CategoryAnalysis) : Option (List RankedEvent) :=
  match cache with
  | none => some []
  | some a =>
    some (a.topEvents.map (fun an =>
      { date := an.event.date, label := an.event.label, peak := an.peak,
        avg7Day := an.avg7DaySpike, delta := an.delta }))

/-- `getBottomEvents()`: the source returns the *empty array* (not `null`)
until an analysis has run. -/
def getBottomEvents (cache : Option CategoryAnalysis) : Option (List RankedEvent) :=
  match cache with
  | none => some []
  | some a =>
    some (a.bottomEvents.map (fun an =>
      { date := an.event.date, label := an.event.label, peak := an.peak,
        avg7Day := an.avg7DaySpike, delta := an.delta }))

end CategoryAnalyzer

namespace ABCompare

/-- One group's aggregate statistics (`avgPeakVarSq` as elsewhere). -/
structure GroupStats where
  avgPeak : ℚ
  avgPeakVarSq : ℚ
  avg7DaySpike : ℚ
  avgDelta : ℚ
  avgBaseline : ℚ
  avgIncrease : ℚ
  avgTimeToPeak : Option ℚ
  maxSpikeDay : ℤ
  medianPeak : ℚ
deriving DecidableEq

/-- One analyzed group. -/
structure GroupAnalysis where
  groupName : String
  eventCount : ℕ
  eventAnalyses : List EventAnalysis
  avgCurve : List CurvePoint
  stats : GroupStats
deriving DecidableEq

/-- `ABCompare.analyzeGroup(events, windowSize, groupName)`. -/
def analyzeGroup (d : LoadedData) (events : List Event) (windowSize : ℤ) (groupName : String) :
    GroupAnalysis :=
  let eventAnalyses := events.map (analyzeOneEvent d windowSize)
  let allPeaks := eventAnalyses.map (fun a => a.peak)
  let all7DaySpikes := eventAnalyses.map (fun a => a.avg7DaySpike)
  let allDeltas := eventAnalyses.map (fun a => a.delta)
  let allTimeToPeak := (eventAnalyses.filterMap (fun a => a.timeToPeak)).map (fun t => (t : ℚ))
  let avgBaseline := Utils.mean (eventAnalyses.map (fun a => a.baseline.mean))
  let avgIncrease := Utils.mean all7DaySpikes - avgBaseline
  let maxSpike := findMaxSpike eventAnalyses windowSize
  { groupName := groupName, eventCount := events.length, eventAnalyses := eventAnalyses,
    avgCurve := calculateAverageResponseCurve eventAnalyses windowSize,
    stats :=
      { avgPeak := Utils.mean allPeaks, avgPeakVarSq := Utils.stdDevSq allPeaks,
        avg7DaySpike := Utils.mean all7DaySpikes, avgDelta := Utils.mean allDeltas,
        avgBaseline := avgBaseline, avgIncrease := avgIncrease,
        avgTimeToPeak := if allTimeToPeak.length ≠ 0 then some (Utils.mean allTimeToPeak)
          else none,
        maxSpikeDay := maxSpike.1, medianPeak := median allPeaks } }

/-- The qualitative severity label from the winner/loser increase ratio. -/
def severityOf (ratio : ℚ) : String :=
  if 3 < ratio then "significantly more"
  else if 2 < ratio then "much more"
  else if 1.5 < ratio then "moderately more"
  else "somewhat more"

/-- The cross-group comparison metrics (`recommendation` narrative reduced to
its discriminating fields: severity label and the less-inflammatory group). -/
structure Comparison where
  peakRatio : ℚ
  increaseRatio : ℚ
  spikeRatio : ℚ
  peakDiff : ℚ
  increaseDiff : ℚ
  spikeDiff : ℚ
  moreInflammatory : String
  inflammatoryMargin : ℚ
  severity : String
  lessInflammatory : String
deriving DecidableEq

/-- `calculateComparison(groupA, groupB)` with `generateRecommendation`
folded in.  The ratios are unguarded quotients (`Infinity`/`NaN` at zero
denominators in the source; see file header). -/
def calculateComparison (groupA groupB : GroupAnalysis) : Comparison :=
  let statsA := groupA.stats
  let statsB := groupB.stats
  let peakRatio := statsA.avgPeak / statsB.avgPeak
  let moreInflammatory := if statsB.avgIncrease < statsA.avgIncrease then "A" else "B"
  let winner := if statsB.avgIncrease < statsA.avgIncrease then statsA else statsB
  let loser := if statsB.avgIncrease < statsA.avgIncrease then statsB else statsA
  let ratio := winner.avgIncrease / loser.avgIncrease
  { peakRatio := peakRatio,
    increaseRatio := |statsA.avgIncrease| / |statsB.avgIncrease|,
    spikeRatio := statsA.avg7DaySpike / statsB.avg7DaySpike,
    peakDiff := statsA.avgPeak - statsB.avgPeak,
    increaseDiff := statsA.avgIncrease - statsB.avgIncrease,
    spikeDiff := statsA.avg7DaySpike - statsB.avg7DaySpike,
    moreInflammatory := moreInflammatory,
    inflammatoryMargin := |peakRatio - 1| * 100,
    severity := severityOf ratio,
    lessInflammatory := if moreInflammatory = "A" then "Group B" else "Group A" }

/-- The cached comparison record. -/
structure ABComparison where
  groupA : GroupAnalysis
  groupB : GroupAnalysis
  comparison : Comparison
  windowSize : ℤ
deriving DecidableEq

/-- `ABCompare.compare(groupAFilters, groupBFilters, options)` over an
explicit connector state; throws on no data, then when either group is
empty. -/
def compare (st : Option LoadedData) (groupAFilters groupBFilters : Filters)
    (windowSize : ℤ) : Except String ABComparison :=
  match st with
  | none => .error "Data not loaded"
  | some d =>
    let eventsA := getEvents d groupAFilters
    let eventsB := getEvents d groupBFilters
    if eventsA.length = 0 ∨ eventsB.length = 0 then
      .error "One or both groups have no events. Adjust your filters."
    else
      let groupA := analyzeGroup d eventsA windowSize "A"
      let groupB := analyzeGroup d eventsB windowSize "B"
      .ok { groupA := groupA, groupB := groupB,
            comparison := calculateComparison groupA groupB, windowSize := windowSize }

/-- One group's curve projection (bound arrays sqrt-valued, omitted). -/
structure CurveProjection where
  offsets : List ℤ
  mean : List ℚ
deriving DecidableEq

/-- `getOverlaidCurvesData()`: `null` until a comparison has run. -/
def getOverlaidCurvesData (cache : Option ABComparison) :
    Option (CurveProjection × CurveProjection) :=
  match cache with
  | none => none
  | some c =>
    some ({ offsets := c.groupA.avgCurve.map (fun p => p.offset),
            mean := c.groupA.avgCurve.map (fun p => p.mean) },
          { offsets := c.groupB.avgCurve.map (fun p => p.offset),
            mean := c.groupB.avgCurve.map (fun p => p.mean) })

/-- `avgTimeToPeak || 0` (a `null` average becomes 0 in the bar chart). -/
def orZero (o : Option ℚ) : ℚ :=
  match o with
  | some v => v
  | none => 0

/-- `getComparisonBarData()`: `null` until a comparison has run. -/
def getComparisonBarData (cache : Option ABComparison) : Option (List ℚ × List ℚ) :=
  match cache with
  | none => none
  | some c =>
    some ([c.groupA.stats.avgPeak, c.groupA.stats.avgIncrease, c.groupA.stats.avg7DaySpike,
           orZero c.groupA.stats.avgTimeToPeak],
          [c.groupB.stats.avgPeak, c.groupB.stats.avgIncrease, c.groupB.stats.avg7DaySpike,
           orZero c.groupB.stats.avgTimeToPeak])

end ABCompare

namespace PreplannedReactive

/-- `signals.X.reactiveScore || 0.5`: `null`, `undefined` — and a stored `0`,
falsy in the source — all display as 0.5. -/
def scoreOrHalf (o : Option ℚ) : ℚ :=
  match o with
  | some v => if v = 0 then 0.5 else v
  | none => 0.5

/-- `getSignalBreakdown()`: `null` until a classification has run. -/
def getSignalBreakdown (cache : Option ReactiveAnalysis) : Option (List ℚ) :=
  match cache with
  | none => none
  | some a =>
    some [scoreOrHalf a.signals.temporal.reactiveScore,
          scoreOrHalf a.signals.buildup.reactiveScore,
          scoreOrHalf a.signals.magnitude.reactiveScore,
          scoreOrHalf a.signals.symbolic.reactiveScore,
          scoreOrHalf a.signals.pattern.reactiveScore]

/-- `getPreEventTrendData()`: `null` until a classification has run. -/
def getPreEventTrendData (cache : Option ReactiveAnalysis) : Option (List ℤ × List ℚ) :=
  match cache with
  | none => none
  | some a =>
    let preEvent := a.windowData.filter (fun p => p.days_from_event ≤ 0)
    some (preEvent.map (fun p => p.days_from_event), preEvent.map (fun p => p.adiz_count))

end PreplannedReactive

end ADIZ

namespace ADIZ

/-! ### Shared lemmas -/

theorem intRange_length (a b : ℤ) : (intRange a b).length = (b + 1 - a).toNat := by
  rw [intRange, List.length_map, List.length_range]

theorem intRange_getElem (a b : ℤ) (i : ℕ) (h : i < (intRange a b).length) :
    (intRange a b).get ⟨i, h⟩ = a + i := by
  simp only [intRange, List.get_eq_getElem, List.getElem_map, List.getElem_range]

theorem mem_intRange {a b d : ℤ} (h : d ∈ intRange a b) : a ≤ d ∧ d ≤ b := by
  simp only [intRange, List.mem_map, List.mem_range] at h
  obtain ⟨i, hi, rfl⟩ := h
  have hi2 : (i : ℤ) < b + 1 - a := by
    by_cases hab : 0 ≤ b + 1 - a
    · omega
    · omega
  omega

/-! ### Claim C4 — baseline statistics sample count and period -/

/-- C4, counterexample: with a 30-day lookback the sample count is **31**, not
30 as claimed — the loop runs from `anchor - 31` to `anchor - 1` inclusive. -/
theorem claim_C4_counterexample :
    ¬ ((Utils.getBaselineStats 0 30 (fun _ => none)).count = 30) := by
  decide

/-- C4, amended: for every anchor, every lookback `n ≥ 0` and every index,
`getBaselineStats` draws its values from the `n + 1` trailing calendar days
`anchor - n - 1 … anchor - 1` (the event day itself excluded), a date missing
from the index contributing a count of 0, and reports that `n + 1` as the
sample count. -/
theorem claim_C4_amended (e n : ℤ) (m : BaselineMap) (hn : 0 ≤ n) :
    (Utils.getBaselineStats e n m).count = (n + 1).toNat ∧
    (∀ d ∈ Utils.baselineDates e n, e - n - 1 ≤ d ∧ d < e) ∧
    (∀ d, m d = none → Utils.getADIZCount m d = 0) ∧
    (Utils.getBaselineStats e n m).mean =
      Utils.mean ((Utils.baselineDates e n).map (Utils.getADIZCount m)) := by
  refine ⟨?_, ?_, ?_, rfl⟩
  · show ((Utils.baselineDates e n).map (Utils.getADIZCount m)).length = (n + 1).toNat
    rw [List.length_map, Utils.baselineDates, intRange_length]
    omega
  · intro d hd
    have := mem_intRange hd
    omega
  · intro d hd
    simp [Utils.getADIZCount, hd]

/-- C4, witness for the amended theorem at a sparse concrete index. -/
theorem claim_C4_witness :
    (0:ℤ) ≤ 3 ∧
    ((Utils.getBaselineStats 5 3 (fun d => if d = 2 then some 4 else none)).count =
        ((3:ℤ) + 1).toNat ∧
      (∀ d ∈ Utils.baselineDates 5 3, (5:ℤ) - 3 - 1 ≤ d ∧ d < 5) ∧
      (∀ d, (if d = (2:ℤ) then some (4:ℚ) else none) = none →
        Utils.getADIZCount (fun d => if d = 2 then some 4 else none) d = 0) ∧
      (Utils.getBaselineStats 5 3 (fun d => if d = 2 then some 4 else none)).mean =
        Utils.mean ((Utils.baselineDates 5 3).map
          (Utils.getADIZCount (fun d => if d = 2 then some 4 else none)))) :=
  ⟨by decide, claim_C4_amended 5 3 (fun d => if d = 2 then some 4 else none) (by decide)⟩

/-! ### Claim C5 — window data shape -/

theorem intRange_getElem? (a b : ℤ) (i : ℕ) (h : i < (b + 1 - a).toNat) :
    (intRange a b)[i]? = some (a + i) := by
  rw [intRange, List.getElem?_map, List.getElem?_range h]
  rfl

/-- The default point used to phrase positional statements about window
lists. -/
def defaultPoint : WindowPoint := ⟨0, 0, 0⟩

/-- C5: for every anchor, radius `r ≥ 0` and index, `getWindowData` yields
exactly `2r+1` points; the `i`-th point has offset `-r + i` (so the offsets
increase strictly from `-r` to `+r` with no gaps), carries the matching
calendar date, and its count is the index value of that date, 0 when
absent. -/
theorem claim_C5_window_shape (e r : ℤ) (m : BaselineMap) (hr : 0 ≤ r) :
    (Utils.getWindowData e r m).length = (2 * r + 1).toNat ∧
    ∀ i : ℕ, i < (2 * r + 1).toNat →
      ((Utils.getWindowData e r m).getD i defaultPoint).days_from_event = -r + i ∧
      ((Utils.getWindowData e r m).getD i defaultPoint).date = e - r + i ∧
      ((Utils.getWindowData e r m).getD i defaultPoint).adiz_count = ((m (e - r + i)).getD 0) := by
  have hlen : (Utils.getWindowData e r m).length = (2 * r + 1).toNat := by
    rw [Utils.getWindowData, List.length_map, Utils.getDateWindow, intRange_length]
    omega
  refine ⟨hlen, ?_⟩
  intro i hi
  have hi2 : i < (e + r + 1 - (e - r)).toNat := by omega
  have key : (Utils.getWindowData e r m)[i]? =
      some { date := e - r + i, adiz_count := Utils.getADIZCount m (e - r + i),
             days_from_event := e - r + i - e } := by
    rw [Utils.getWindowData, List.getElem?_map, Utils.getDateWindow,
      intRange_getElem? (e - r) (e + r) i hi2]
    rfl
  rw [List.getD_eq_getElem?_getD, key]
  refine ⟨by show e - r + i - e = -r + i; omega, rfl, rfl⟩

/-- C5, witness at a concrete sparse index and radius 2. -/
theorem claim_C5_witness :
    (0:ℤ) ≤ 2 ∧
    ((Utils.getWindowData 100 2 (fun d => if d = 101 then some 7 else none)).length =
        ((2:ℤ) * 2 + 1).toNat ∧
      ∀ i : ℕ, i < ((2:ℤ) * 2 + 1).toNat →
        ((Utils.getWindowData 100 2 (fun d => if d = 101 then some 7 else none)).getD i
            defaultPoint).days_from_event = -2 + i ∧
        ((Utils.getWindowData 100 2 (fun d => if d = 101 then some 7 else none)).getD i
            defaultPoint).date = 100 - 2 + i ∧
        ((Utils.getWindowData 100 2 (fun d => if d = 101 then some 7 else none)).getD i
            defaultPoint).adiz_count =
          (((fun d : ℤ => if d = 101 then some (7:ℚ) else none) (100 - 2 + i)).getD 0)) :=
  ⟨by decide, claim_C5_window_shape 100 2 (fun d => if d = 101 then some 7 else none) (by decide)⟩

/-! ### Claim C8 — explicit errors before load and on empty filter results -/

/-- C8: every analysis entry point invoked with no loaded data fails with the
explicit `'Data not loaded'` error; with data loaded, a filter combination
matching zero events makes the category analyzer fail with its distinct
empty-result error, and the A/B comparator fails likewise when either group
is empty; the two messages are distinct from the no-data one. -/
theorem claim_C8_error_handling :
    (∀ (ev : Event) (ws bl : ℤ),
      SingleEventAnalyzer.analyze none ev ws bl = .error "Data not loaded") ∧
    (∀ (f : Filters) (ws : ℤ),
      CategoryAnalyzer.analyze none f ws = .error "Data not loaded") ∧
    (∀ (fA fB : Filters) (ws : ℤ),
      ABCompare.compare none fA fB ws = .error "Data not loaded") ∧
    (∀ (ev : Event) (o : Option ℤ),
      classify none ev o = .error "Data not loaded") ∧
    (∀ (d : LoadedData) (f : Filters) (ws : ℤ), getEvents d f = [] →
      CategoryAnalyzer.analyze (some d) f ws =
        .error "No events match these filters. Try different filter combination.") ∧
    (∀ (d : LoadedData) (fA fB : Filters) (ws : ℤ),
      getEvents d fA = [] ∨ getEvents d fB = [] →
      ABCompare.compare (some d) fA fB ws =
        .error "One or both groups have no events. Adjust your filters.") ∧
    ("No events match these filters. Try different filter combination." ≠
      "Data not loaded") ∧
    ("One or both groups have no events. Adjust your filters." ≠ "Data not loaded") := by
  refine ⟨fun _ _ _ => rfl, fun _ _ => rfl, fun _ _ _ => rfl, fun _ _ => rfl,
    ?_, ?_, by decide, by decide⟩
  · intro d f ws h
    simp only [CategoryAnalyzer.analyze, h]
    rfl
  · intro d fA fB ws h
    rcases h with h | h <;> simp only [ABCompare.compare, h] <;>
      simp [List.length_eq_zero]

/-- A loaded-but-empty catalog used to exercise the empty-result errors. -/
def emptyCatalog : LoadedData := ⟨fun _ => none, []⟩

/-- A throwaway event record. -/
def someEvent : Event := ⟨0, "arms", "E", "", "arms_sales"⟩

/-- C8, witness: concrete calls hitting each error branch. -/
theorem claim_C8_witness :
    SingleEventAnalyzer.analyze none someEvent 7 30 = .error "Data not loaded" ∧
    classify none someEvent none = .error "Data not loaded" ∧
    CategoryAnalyzer.analyze (some emptyCatalog) noFilters 14 =
      .error "No events match these filters. Try different filter combination." ∧
    ABCompare.compare (some emptyCatalog) noFilters noFilters 14 =
      .error "One or both groups have no events. Adjust your filters." :=
  ⟨claim_C8_error_handling.1 someEvent 7 30,
   claim_C8_error_handling.2.2.2.1 someEvent none,
   claim_C8_error_handling.2.2.2.2.1 emptyCatalog noFilters 14 (by decide),
   claim_C8_error_handling.2.2.2.2.2.1 emptyCatalog noFilters noFilters 14 (Or.inl (by decide))⟩

/-! ### Claim C9 — not-yet-analyzed sentinels -/

/-- C9, counterexample: `getTopEvents` called before any analysis returns the
empty array, not the `null` sentinel the claim asserts for every accessor. -/
theorem claim_C9_counterexample :
    CategoryAnalyzer.getTopEvents none = some [] ∧
    CategoryAnalyzer.getTopEvents none ≠ none := by
  refine ⟨rfl, by decide⟩

/-- C9, amended: before the corresponding analysis has run, every accessor
returns its not-yet-analyzed sentinel — `null` for the chart/summary/
breakdown accessors, but the *empty array* for `getConfounders`,
`getTopEvents` and `getBottomEvents`. -/
theorem claim_C9_amended :
    SingleEventAnalyzer.getChartData none = none ∧
    SingleEventAnalyzer.getSummaryCard none = none ∧
    SingleEventAnalyzer.getConfounders none = some [] ∧
    CategoryAnalyzer.getAverageCurveData none = none ∧
    CategoryAnalyzer.getEventOverlayData none = none ∧
    CategoryAnalyzer.getSummary none = none ∧
    CategoryAnalyzer.getTopEvents none = some [] ∧
    CategoryAnalyzer.getBottomEvents none = some [] ∧
    ABCompare.getOverlaidCurvesData none = none ∧
    ABCompare.getComparisonBarData none = none ∧
    PreplannedReactive.getSignalBreakdown none = none ∧
    PreplannedReactive.getPreEventTrendData none = none :=
  ⟨rfl, rfl, rfl, rfl, rfl, rfl, rfl, rfl, rfl, rfl, rfl, rfl⟩

/-! ### Claim C6 — hardcoded symbolic-date check -/

section
attribute [local semireducible] Rat.add Rat.mul Rat.sub Rat.inv Rat.ofScientific

/-- A loaded catalog with no political-category events, so the symbolic
signal falls back to the hardcoded date table. -/
def noPoliticalCatalog : LoadedData :=
  ⟨fun _ => some 5, [⟨100, "arms", "A", "", "arms_sales"⟩]⟩

/-- C6: epoch day 19158 is 2022-06-15, at least 16 calendar days away from
every entry of the symbolic table, yet the fallback check reports a symbolic
match (score 0.3) — naming Double Ten Day, contradicting its own
`Within 2 days of` rationale — because the month-day encoding test
`|mmdd − mmdd| ≤ 2 || ≥ 98` accepts almost every pair.  The claim's neutral
outcome (`isSymbolic = false`, score 0.5) does not occur. -/
theorem claim_C6_code_divergence :
    monthOf 19158 = 6 ∧ dayOf 19158 = 15 ∧
    (analyzeSymbolicTiming noPoliticalCatalog 19158).isSymbolic = true ∧
    (analyzeSymbolicTiming noPoliticalCatalog 19158).reactiveScore = some 0.3 ∧
    (analyzeSymbolicTiming noPoliticalCatalog 19158).symbolicDate =
      some "Double Ten Day (ROC National Day)" := by
  decide


/-! ### Claim C3 — the typical magnitude case loses its score -/

/-- A constant-5 baseline with three same-category events, giving a
magnitude ratio of exactly 1 (the typical case). -/
def typicalCatalog : LoadedData :=
  ⟨fun _ => some 5,
   [⟨10, "arms", "A", "", "arms_sales"⟩,
    ⟨50, "arms", "B", "", "arms_sales"⟩,
    ⟨90, "arms", "C", "", "arms_sales"⟩]⟩

/-- The first event of `typicalCatalog`. -/
def typicalEvent : Event := ⟨10, "arms", "A", "", "arms_sales"⟩

set_option maxRecDepth 8000 in
/-- C3: classifying `typicalEvent` (three same-category comparison events,
ratio 1 ≤ 1.5, no compound rule) reaches the typical branch, but its
`reactiveScore: 0.5;` is a labelled statement, not an assignment, so the
signal's score stays `undefined` (`none`) and the signal drops out of the
weighted combination: the final score is (0.9·0.35 + 0.5·0.25 + 0.3·0.10 +
0.5·0.10) / 0.8 = 0.65, normalized *without* the magnitude weight. -/
theorem claim_C3_label_statement_bug :
    (classify (some typicalCatalog) typicalEvent (some 3)).toOption.map
        (fun a => (a.signals.magnitude.comparison, a.signals.magnitude.reactiveScore,
          a.classification.reactiveScore)) =
      some ("typical", none, 13/20) := by
  decide


/-! ### Claim C7 — the magnitude comparison set includes the classified event -/

/-- The magnitude comparison as claim C7 words it: the classified event is
excluded from the same-category comparison set, and fewer than 3 remaining
comparable events degrade the signal to neutral; otherwise the average is
taken exactly as the source takes it, over the excluded-self set. -/
def analyzeMagnitudeClaimed (d : LoadedData) (event : Event) (windowData : List WindowPoint)
    (temporalDays : Option ℤ) : MagnitudeSignal :=
  let otherEvents := (getEvents d { noFilters with category := some event.category }).filter
    (fun e => e ≠ event)
  if otherEvents.length < 3 then
    { thisPeak := none, avgSimilarPeak := none, ratio := none, temporalDays := none,
      comparison := "insufficient_data", reactiveScore := some (1/2) }
  else
    let thisPeak := Utils.max (windowData.map (fun p => p.adiz_count))
    let similarPeaks :=
      (((otherEvents.take 20).map
          (fun e => Utils.max ((Utils.getWindowData e.date 14 d.baselineMap).map
            (fun p => p.adiz_count)))).filter (fun p => 0 < p))
    let avgSimilarPeak := Utils.mean similarPeaks
    let ratio := thisPeak / avgSimilarPeak
    if 5/2 < ratio ∧ tdWithin temporalDays 3 = true then
      { thisPeak := some thisPeak, avgSimilarPeak := some avgSimilarPeak, ratio := some ratio,
        temporalDays := temporalDays, comparison := "much_larger_immediate",
        reactiveScore := some (19/20) }
    else if 2 < ratio ∧ tdWithin temporalDays 5 = true then
      { thisPeak := some thisPeak, avgSimilarPeak := some avgSimilarPeak, ratio := some ratio,
        temporalDays := temporalDays, comparison := "large_near_immediate",
        reactiveScore := some (17/20) }
    else if 5/2 < ratio then
      { thisPeak := some thisPeak, avgSimilarPeak := some avgSimilarPeak, ratio := some ratio,
        temporalDays := temporalDays, comparison := "much_larger", reactiveScore := some (7/10) }
    else if 3/2 < ratio then
      { thisPeak := some thisPeak, avgSimilarPeak := some avgSimilarPeak, ratio := some ratio,
        temporalDays := temporalDays, comparison := "larger", reactiveScore := some (3/5) }
    else
      { thisPeak := some thisPeak, avgSimilarPeak := some avgSimilarPeak, ratio := some ratio,
        temporalDays := temporalDays, comparison := "typical", reactiveScore := some (1/2) }

/-- A baseline giving the classified event a ±14-day window peak of 30 and
the two other same-category events peaks of 10. -/
def selfPeakMap : BaselineMap :=
  fun d => if d = 10 then some 30 else if d = 50 then some 10 else if d = 90 then some 10
    else some 0

/-- Three same-category events over `selfPeakMap`. -/
def selfPeakCatalog : LoadedData :=
  ⟨selfPeakMap,
   [⟨10, "arms", "A", "", "arms_sales"⟩,
    ⟨50, "arms", "B", "", "arms_sales"⟩,
    ⟨90, "arms", "C", "", "arms_sales"⟩]⟩

/-- The first event of `selfPeakCatalog`. -/
def selfPeakEvent : Event := ⟨10, "arms", "A", "", "arms_sales"⟩

set_option maxRecDepth 8000 in
/-- C7, counterexample: classifying `selfPeakEvent` the source averages the
peaks of *all three* same-category events — the classified event's own
30 included — giving `avgSimilarPeak = 50/3` and a "larger" signal (score
0.6), while the claimed self-excluding comparison has only two other events
(fewer than 3) and would be neutral: the claim is false of the code. -/
theorem claim_C7_counterexample :
    (classify (some selfPeakCatalog) selfPeakEvent (some 3)).toOption.map
        (fun a => (a.signals.magnitude.comparison, a.signals.magnitude.reactiveScore,
          a.signals.magnitude.avgSimilarPeak)) =
      some ("larger", some (3/5), some (50/3)) ∧
    (analyzeMagnitudeClaimed selfPeakCatalog selfPeakEvent
        (Utils.getWindowData 10 3 selfPeakMap) none).comparison = "insufficient_data" ∧
    (analyzeMagnitudeClaimed selfPeakCatalog selfPeakEvent
        (Utils.getWindowData 10 3 selfPeakMap) none).reactiveScore = some (1/2) := by
  refine ⟨by decide, by decide, by decide⟩

/-- C7, amended: the comparison set is the whole same-category slice of the
catalog, the classified event *included*; it is the count of that slice
(self included) that gates the minimum-3 rule, below which the signal is
neutral 0.5. -/
theorem claim_C7_amended (d : LoadedData) (ev : Event) (wd : List WindowPoint)
    (bs : Utils.BaselineStats) (td : Option ℤ) (hev : ev ∈ d.eventIndex) :
    ev ∈ getEvents d { noFilters with category := some ev.category } ∧
    ((getEvents d { noFilters with category := some ev.category }).length < 3 →
      (analyzeMagnitude d ev wd bs td).comparison = "insufficient_data" ∧
      (analyzeMagnitude d ev wd bs td).reactiveScore = some 0.5) := by
  constructor
  · show ev ∈ applyDatasetFilter _ (applyEndFilter _ (applyStartFilter _
      (applyCategoryFilter ⟨some ev.category, none, none, none⟩ d.eventIndex)))
    rw [applyDatasetFilter, applyEndFilter, applyStartFilter, applyCategoryFilter]
    by_cases hall : ev.category = "all" ∨ ev.category = ""
    · simpa [hall] using hev
    · simp only [hall, if_false]
      exact List.mem_filter.mpr ⟨hev, by simp⟩
  · intro h3
    rw [analyzeMagnitude]
    simp only [if_pos h3]
    exact ⟨trivial, trivial⟩


/-- C7, witness for the amended theorem at a member of a concrete catalog. -/
theorem claim_C7_witness :
    selfPeakEvent ∈ selfPeakCatalog.eventIndex ∧
    (selfPeakEvent ∈ getEvents selfPeakCatalog
        { noFilters with category := some selfPeakEvent.category } ∧
      ((getEvents selfPeakCatalog
          { noFilters with category := some selfPeakEvent.category }).length < 3 →
        (analyzeMagnitude selfPeakCatalog selfPeakEvent [] ⟨0, 0, 0, 0, 0⟩ none).comparison =
          "insufficient_data" ∧
        (analyzeMagnitude selfPeakCatalog selfPeakEvent [] ⟨0, 0, 0, 0, 0⟩ none).reactiveScore =
          some 0.5)) :=
  ⟨by decide,
   claim_C7_amended selfPeakCatalog selfPeakEvent [] ⟨0, 0, 0, 0, 0⟩ none (by decide)⟩


/-! ### Claim C10 — the comparison average over the first 20 catalog events -/

theorem applyCategoryFilter_sublist (f : Filters) (l : List Event) :
    (applyCategoryFilter f l).Sublist l := by
  rw [applyCategoryFilter]
  cases f.category with
  | none => exact List.Sublist.refl l
  | some c =>
    dsimp only
    split
    · exact List.Sublist.refl l
    · exact List.filter_sublist l

theorem applyStartFilter_sublist (f : Filters) (l : List Event) :
    (applyStartFilter f l).Sublist l := by
  rw [applyStartFilter]
  cases f.startDate with
  | none => exact List.Sublist.refl l
  | some st => exact List.filter_sublist l

theorem applyEndFilter_sublist (f : Filters) (l : List Event) :
    (applyEndFilter f l).Sublist l := by
  rw [applyEndFilter]
  cases f.endDate with
  | none => exact List.Sublist.refl l
  | some t => exact List.filter_sublist l

theorem applyDatasetFilter_sublist (f : Filters) (l : List Event) :
    (applyDatasetFilter f l).Sublist l := by
  rw [applyDatasetFilter]
  cases f.dataset with
  | none => exact List.Sublist.refl l
  | some ds =>
    dsimp only
    split
    · exact List.Sublist.refl l
    · exact List.filter_sublist l

/-- `getEvents` returns a subsequence of the catalog (in catalog order). -/
theorem getEvents_sublist (d : LoadedData) (f : Filters) :
    (getEvents d f).Sublist d.eventIndex :=
  ((applyDatasetFilter_sublist f _).trans (applyEndFilter_sublist f _)).trans
    ((applyStartFilter_sublist f _).trans (applyCategoryFilter_sublist f _))

/-- C10: whenever the minimum-3 gate passes, `avgSimilarPeak` is the mean of
the ±14-day window peaks — the 14 fixed, whatever window size `wd` the
classified event was analyzed with — of the first at-most-20 same-category
events, peaks of 0 excluded; and that scanned slice is a ≤20-element
subsequence of the catalog, hence (for a date-sorted catalog) the *first* 20
same-category events in ascending date order. -/
theorem claim_C10_comparison_average (d : LoadedData) (ev : Event) (wd : List WindowPoint)
    (bs : Utils.BaselineStats) (td : Option ℤ)
    (hsort : d.eventIndex.Pairwise (fun a b => a.date ≤ b.date))
    (h3 : ¬ (getEvents d { noFilters with category := some ev.category }).length < 3) :
    (analyzeMagnitude d ev wd bs td).avgSimilarPeak =
      some (Utils.mean
        ((((getEvents d { noFilters with category := some ev.category }).take 20).map
          (fun e => Utils.max ((Utils.getWindowData e.date 14 d.baselineMap).map
            (fun p => p.adiz_count)))).filter (fun p => 0 < p))) ∧
    ((getEvents d { noFilters with category := some ev.category }).take 20).length ≤ 20 ∧
    ((getEvents d { noFilters with category := some ev.category }).take 20).Sublist
      d.eventIndex ∧
    ((getEvents d { noFilters with category := some ev.category }).take 20).Pairwise
      (fun a b => a.date ≤ b.date) := by
  refine ⟨?_, ?_, ?_, ?_⟩
  · rw [analyzeMagnitude]
    simp only [if_neg h3]
    repeat' split
    all_goals rfl
  · exact List.length_take_le 20 _
  · exact (List.take_sublist 20 _).trans (getEvents_sublist d _)
  · exact hsort.sublist ((List.take_sublist 20 _).trans (getEvents_sublist d _))


set_option maxRecDepth 8000 in
/-- C10, witness at `selfPeakCatalog` (date-sorted, three arms events). -/
theorem claim_C10_witness :
    selfPeakCatalog.eventIndex.Pairwise (fun a b => a.date ≤ b.date) ∧
    ¬ (getEvents selfPeakCatalog
        { noFilters with category := some selfPeakEvent.category }).length < 3 ∧
    ((analyzeMagnitude selfPeakCatalog selfPeakEvent [] ⟨0, 0, 0, 0, 0⟩ none).avgSimilarPeak =
      some (Utils.mean
        ((((getEvents selfPeakCatalog
              { noFilters with category := some selfPeakEvent.category }).take 20).map
          (fun e => Utils.max ((Utils.getWindowData e.date 14
            selfPeakCatalog.baselineMap).map (fun p => p.adiz_count)))).filter
          (fun p => 0 < p))) ∧
    ((getEvents selfPeakCatalog
        { noFilters with category := some selfPeakEvent.category }).take 20).length ≤ 20 ∧
    ((getEvents selfPeakCatalog
        { noFilters with category := some selfPeakEvent.category }).take 20).Sublist
      selfPeakCatalog.eventIndex ∧
    ((getEvents selfPeakCatalog
        { noFilters with category := some selfPeakEvent.category }).take 20).Pairwise
      (fun a b => a.date ≤ b.date)) :=
  ⟨by decide, by decide,
   claim_C10_comparison_average selfPeakCatalog selfPeakEvent [] ⟨0, 0, 0, 0, 0⟩ none
     (by decide) (by decide)⟩


/-! ### Claim C1 — weight selection and normalized weighted average -/

/-- The weight selection exactly as claim C1 words it. -/
def claimedWeights (signals : Signals) : Weights :=
  if signals.pattern.pattern = "sharp_spike_rapid_decay" then
    ⟨0.30, 0.20, 0.25, 0.05, 0.20⟩
  else if signals.magnitude.comparison = "much_larger_immediate" ∨
      signals.magnitude.comparison = "large_near_immediate" then
    ⟨0.30, 0.20, 0.30, 0.10, 0.10⟩
  else
    ⟨0.35, 0.25, 0.20, 0.10, 0.10⟩

/-- The `(score, weight)` pairs of exactly those signals whose score is
defined. -/
def includedEntries (entries : List (Option ℚ × ℚ)) : List (ℚ × ℚ) :=
  entries.filterMap (fun e => e.1.map (fun r => (r, e.2)))

/-- The weighted average as claim C1 words it: over exactly the signals with
a defined score, normalized by the sum of their weights only. -/
def claimedWeightedAverage (signals : Signals) (w : Weights) : ℚ :=
  let included := includedEntries (signalEntries signals w)
  ((included.map (fun p => p.1 * p.2)).sum) / ((included.map (fun p => p.2)).sum)

theorem accumulate_foldl (l : List (Option ℚ × ℚ)) : ∀ a b : ℚ,
    (l.foldl
      (fun acc e => match e.1 with
        | some r => (acc.1 + r * e.2, acc.2 + e.2)
        | none => acc)
      (a, b)) =
    (a + ((includedEntries l).map (fun p => p.1 * p.2)).sum,
     b + ((includedEntries l).map (fun p => p.2)).sum) := by
  induction l with
  | nil =>
    intro a b
    simp [includedEntries]
  | cons e t ih =>
    intro a b
    rcases e with ⟨sc, w⟩
    cases sc with
    | none =>
      rw [List.foldl_cons]
      dsimp only
      rw [ih a b]
      simp [includedEntries, List.filterMap_cons]
    | some r =>
      rw [List.foldl_cons]
      dsimp only
      rw [ih (a + r * w) (b + w)]
      simp only [includedEntries, List.filterMap_cons, Option.map_some', List.map_cons,
        List.sum_cons]
      refine Prod.ext ?_ ?_ <;> dsimp only <;> ring

theorem accumulate_eq_sums (l : List (Option ℚ × ℚ)) :
    accumulate l =
      (((includedEntries l).map (fun p => p.1 * p.2)).sum,
       ((includedEntries l).map (fun p => p.2)).sum) := by
  rw [accumulate, accumulate_foldl l 0 0]
  simp

theorem calculateClassification_weights (s : Signals) :
    (calculateClassification s).weights = selectWeights s := by
  rw [calculateClassification]
  repeat' split
  all_goals rfl

theorem calculateClassification_score (s : Signals) :
    (calculateClassification s).reactiveScore =
      (accumulate (signalEntries s (selectWeights s))).1 /
        (accumulate (signalEntries s (selectWeights s))).2 := by
  rw [calculateClassification]
  repeat' split
  all_goals rfl

theorem selectWeights_eq_claimed (s : Signals) : selectWeights s = claimedWeights s := rfl

/-- C1: every classify call on loaded data selects the weight vector by the
claimed rule — spike-pattern override first, else the compound-magnitude
override, else the base weights — and its final `reactiveScore` is the
weighted average over exactly the defined signals, normalized by the sum of
their weights only. -/
theorem claim_C1_weights_and_average (d : LoadedData) (ev : Event) (o : Option ℤ) :
    ∃ a, classify (some d) ev o = .ok a ∧
      a.classification.weights = claimedWeights a.signals ∧
      a.classification.reactiveScore =
        claimedWeightedAverage a.signals (claimedWeights a.signals) := by
  refine ⟨_, rfl, ?_, ?_⟩
  · exact (calculateClassification_weights _).trans (selectWeights_eq_claimed _)
  · rw [calculateClassification_score, accumulate_eq_sums]
    rw [claimedWeightedAverage, ← selectWeights_eq_claimed]


/-! ### Claim C2 — score range and verdict thresholds -/

theorem temporal_score_defined_bounded (wd : List WindowPoint) :
    ∃ r, (analyzeTemporalProximity wd).reactiveScore = some r ∧ 0 ≤ r ∧ r ≤ 1 := by
  rw [analyzeTemporalProximity]
  cases Utils.getTimeToPeak wd with
  | none => exact ⟨0, rfl, by norm_num⟩
  | some t =>
    dsimp only
    split_ifs
    · exact ⟨0.9, rfl, by norm_num⟩
    · exact ⟨0.5, rfl, by norm_num⟩
    · exact ⟨0.5, rfl, by norm_num⟩

theorem buildup_score_bounded (wd : List WindowPoint) (bs : Utils.BaselineStats) :
    ∀ r, (analyzePreEventBuildup wd bs).reactiveScore = some r → 0 ≤ r ∧ r ≤ 1 := by
  rw [analyzePreEventBuildup]
  dsimp only
  split_ifs <;> intro r hr <;> injection hr with h <;> subst h <;> norm_num

theorem magnitude_score_bounded (d : LoadedData) (ev : Event) (wd : List WindowPoint)
    (bs : Utils.BaselineStats) (td : Option ℤ) :
    ∀ r, (analyzeMagnitude d ev wd bs td).reactiveScore = some r → 0 ≤ r ∧ r ≤ 1 := by
  rw [analyzeMagnitude]
  dsimp only
  split_ifs <;> intro r hr
  · injection hr with h; subst h; norm_num
  · injection hr with h; subst h; norm_num
  · injection hr with h; subst h; norm_num
  · injection hr with h; subst h; norm_num
  · injection hr with h; subst h; norm_num
  · exact hr.elim

set_option maxHeartbeats 1600000 in
theorem checkHardcoded_score_bounded (e : ℤ) :
    ∀ r, (checkHardcodedSymbolicDates e).reactiveScore = some r → 0 ≤ r ∧ r ≤ 1 := by
  rw [checkHardcodedSymbolicDates]
  generalize monthOf e = M
  generalize dayOf e = D
  split <;> intro r hr <;> injection hr with h <;> subst h <;> norm_num

theorem classifyPoliticalText_bounded (t : String) :
    0 ≤ (classifyPoliticalText t).2 ∧ (classifyPoliticalText t).2 ≤ 1 := by
  rw [classifyPoliticalText]
  split_ifs <;> norm_num

theorem symbolic_score_bounded (d : LoadedData) (e : ℤ) :
    ∀ r, (analyzeSymbolicTiming d e).reactiveScore = some r → 0 ≤ r ∧ r ≤ 1 := by
  simp only [analyzeSymbolicTiming]
  split_ifs
  · exact checkHardcoded_score_bounded e
  · intro r hr; injection hr with h; subst h; norm_num
  · intro r hr
    injection hr with h
    subst h
    exact classifyPoliticalText_bounded " "

theorem pattern_score_bounded (wd : List WindowPoint) :
    ∀ r, (analyzePattern wd).reactiveScore = some r → 0 ≤ r ∧ r ≤ 1 := by
  rw [analyzePattern]
  split_ifs <;> intro r hr <;> injection hr with h <;> subst h <;> norm_num


theorem mem_includedEntries {l : List (Option ℚ × ℚ)} {q : ℚ × ℚ}
    (hq : q ∈ includedEntries l) : ∃ e ∈ l, e.1 = some q.1 ∧ e.2 = q.2 := by
  rw [includedEntries, List.mem_filterMap] at hq
  obtain ⟨e, he, hfe⟩ := hq
  refine ⟨e, he, ?_⟩
  cases h1 : e.1 with
  | none => rw [h1] at hfe; exact absurd hfe (by simp)
  | some r =>
    rw [h1] at hfe
    simp only [Option.map_some', Option.some.injEq] at hfe
    rw [← hfe]
    exact ⟨rfl, rfl⟩

theorem sum_prod_le_sum_weights (L : List (ℚ × ℚ))
    (h : ∀ p ∈ L, 0 ≤ p.1 ∧ p.1 ≤ 1 ∧ 0 ≤ p.2) :
    0 ≤ (L.map (fun p => p.1 * p.2)).sum ∧
    (L.map (fun p => p.1 * p.2)).sum ≤ (L.map (fun p => p.2)).sum ∧
    0 ≤ (L.map (fun p => p.2)).sum := by
  induction L with
  | nil => simp
  | cons p t ih =>
    have hp := h p (List.mem_cons_self p t)
    have ht := ih (fun q hq => h q (List.mem_cons_of_mem p hq))
    simp only [List.map_cons, List.sum_cons]
    refine ⟨?_, ?_, ?_⟩
    · have : 0 ≤ p.1 * p.2 := mul_nonneg hp.1 hp.2.2
      linarith [ht.1]
    · have : p.1 * p.2 ≤ p.2 := mul_le_of_le_one_left hp.2.2 hp.2.1
      linarith [ht.2.1]
    · linarith [ht.2.2, hp.2.2]

theorem accumulate_bounds (l : List (Option ℚ × ℚ))
    (h : ∀ e ∈ l, 0 ≤ e.2 ∧ ∀ r, e.1 = some r → 0 ≤ r ∧ r ≤ 1) :
    0 ≤ (accumulate l).1 ∧ (accumulate l).1 ≤ (accumulate l).2 ∧ 0 ≤ (accumulate l).2 := by
  rw [accumulate_eq_sums]
  refine sum_prod_le_sum_weights (includedEntries l) ?_
  intro q hq
  obtain ⟨e, he, h1, h2⟩ := mem_includedEntries hq
  obtain ⟨hw, hs⟩ := h e he
  obtain ⟨hr0, hr1⟩ := hs q.1 h1
  exact ⟨hr0, hr1, h2 ▸ hw⟩

theorem accumulate_snd_lower (l : List (Option ℚ × ℚ)) (sc : ℚ) (w : ℚ)
    (hw : ∀ e ∈ l, 0 ≤ e.2) :
    w ≤ (accumulate ((some sc, w) :: l)).2 := by
  rw [accumulate_eq_sums]
  simp only [includedEntries, List.filterMap_cons, Option.map_some', List.map_cons,
    List.sum_cons]
  have : 0 ≤ ((l.filterMap (fun e => e.1.map (fun r => (r, e.2)))).map (fun p => p.2)).sum := by
    apply List.sum_nonneg
    intro x hx
    rw [List.mem_map] at hx
    obtain ⟨q, hq, rfl⟩ := hx
    obtain ⟨e, he, h1, h2⟩ := mem_includedEntries (l := l) (by simpa [includedEntries] using hq)
    exact h2 ▸ hw e he
  linarith

theorem selectWeights_components (s : Signals) :
    0 < (selectWeights s).temporal ∧ 0 ≤ (selectWeights s).buildup ∧
    0 ≤ (selectWeights s).magnitude ∧ 0 ≤ (selectWeights s).symbolic ∧
    0 ≤ (selectWeights s).pattern := by
  rw [selectWeights]
  split_ifs <;> norm_num [spikeWeights, compoundWeights, baseWeights]


theorem calculateClassification_score_bounds (s : Signals)
    (ht : ∃ rt, s.temporal.reactiveScore = some rt ∧ 0 ≤ rt ∧ rt ≤ 1)
    (hb : ∀ r, s.buildup.reactiveScore = some r → 0 ≤ r ∧ r ≤ 1)
    (hm : ∀ r, s.magnitude.reactiveScore = some r → 0 ≤ r ∧ r ≤ 1)
    (hsy : ∀ r, s.symbolic.reactiveScore = some r → 0 ≤ r ∧ r ≤ 1)
    (hp : ∀ r, s.pattern.reactiveScore = some r → 0 ≤ r ∧ r ≤ 1) :
    0 ≤ (calculateClassification s).reactiveScore ∧
    (calculateClassification s).reactiveScore ≤ 1 := by
  obtain ⟨rt, hrt, hrt0, hrt1⟩ := ht
  have hw := selectWeights_components s
  have hentries : ∀ e ∈ signalEntries s (selectWeights s),
      0 ≤ e.2 ∧ ∀ r, e.1 = some r → 0 ≤ r ∧ r ≤ 1 := by
    intro e he
    simp only [signalEntries, List.mem_cons, List.not_mem_nil, or_false] at he
    rcases he with rfl | rfl | rfl | rfl | rfl
    · exact ⟨le_of_lt hw.1, fun r hr => by
        rw [hrt] at hr; injection hr with h; subst h; exact ⟨hrt0, hrt1⟩⟩
    · exact ⟨hw.2.1, hb⟩
    · exact ⟨hw.2.2.1, hm⟩
    · exact ⟨hw.2.2.2.1, hsy⟩
    · exact ⟨hw.2.2.2.2, hp⟩
  have hacc := accumulate_bounds (signalEntries s (selectWeights s)) hentries
  have hlow : (selectWeights s).temporal ≤
      (accumulate (signalEntries s (selectWeights s))).2 := by
    have hrest : ∀ e ∈
        [ (s.buildup.reactiveScore, (selectWeights s).buildup),
          (s.magnitude.reactiveScore, (selectWeights s).magnitude),
          (s.symbolic.reactiveScore, (selectWeights s).symbolic),
          (s.pattern.reactiveScore, (selectWeights s).pattern) ], 0 ≤ e.2 := by
      intro e he
      simp only [List.mem_cons, List.not_mem_nil, or_false] at he
      rcases he with rfl | rfl | rfl | rfl
      · exact hw.2.1
      · exact hw.2.2.1
      · exact hw.2.2.2.1
      · exact hw.2.2.2.2
    calc (selectWeights s).temporal
        ≤ (accumulate ((some rt, (selectWeights s).temporal) ::
            [ (s.buildup.reactiveScore, (selectWeights s).buildup),
              (s.magnitude.reactiveScore, (selectWeights s).magnitude),
              (s.symbolic.reactiveScore, (selectWeights s).symbolic),
              (s.pattern.reactiveScore, (selectWeights s).pattern) ])).2 :=
          accumulate_snd_lower _ rt _ hrest
      _ = (accumulate (signalEntries s (selectWeights s))).2 := by rw [signalEntries, hrt]
  have hWpos : 0 < (accumulate (signalEntries s (selectWeights s))).2 :=
    lt_of_lt_of_le hw.1 hlow
  rw [calculateClassification_score]
  exact ⟨div_nonneg hacc.1 (le_of_lt hWpos), (div_le_one hWpos).mpr hacc.2.1⟩

theorem calculateClassification_verdict (s : Signals) :
    ((calculateClassification s).verdict = "reactive" ↔
      (0.65 : ℚ) ≤ (calculateClassification s).reactiveScore) ∧
    ((calculateClassification s).verdict = "pre-planned" ↔
      (calculateClassification s).reactiveScore ≤ (0.35 : ℚ)) ∧
    ((calculateClassification s).verdict = "mixed" ↔
      ((0.35 : ℚ) < (calculateClassification s).reactiveScore ∧
        (calculateClassification s).reactiveScore < (0.65 : ℚ))) ∧
    ((calculateClassification s).verdict = "reactive" →
      (((calculateClassification s).confidence = "high" ↔
          (0.8 : ℚ) ≤ (calculateClassification s).reactiveScore) ∧
        ((calculateClassification s).confidence = "medium" ↔
          (calculateClassification s).reactiveScore < (0.8 : ℚ)))) ∧
    ((calculateClassification s).verdict = "pre-planned" →
      (((calculateClassification s).confidence = "high" ↔
          (calculateClassification s).reactiveScore ≤ (0.2 : ℚ)) ∧
        ((calculateClassification s).confidence = "medium" ↔
          (0.2 : ℚ) < (calculateClassification s).reactiveScore))) ∧
    ((calculateClassification s).verdict = "mixed" →
      (calculateClassification s).confidence = "low") := by
  simp only [calculateClassification]
  split_ifs with h1 h2 h3 h4
  · exact ⟨iff_of_true rfl h1,
      iff_of_false (by simp) (by intro hc; norm_num at h1 hc ⊢; linarith),
      iff_of_false (by simp) (by rintro ⟨_, hc⟩; norm_num at h1 hc ⊢; linarith),
      fun _ => ⟨iff_of_true rfl h2, iff_of_false (by simp) (not_lt.mpr h2)⟩,
      fun habs => absurd habs (by simp),
      fun habs => absurd habs (by simp)⟩
  · exact ⟨iff_of_true rfl h1,
      iff_of_false (by simp) (by intro hc; norm_num at h1 hc ⊢; linarith),
      iff_of_false (by simp) (by rintro ⟨_, hc⟩; norm_num at h1 hc ⊢; linarith),
      fun _ => ⟨iff_of_false (by simp) h2, iff_of_true rfl (not_le.mp h2)⟩,
      fun habs => absurd habs (by simp),
      fun habs => absurd habs (by simp)⟩
  · exact ⟨iff_of_false (by simp) h1,
      iff_of_true rfl h3,
      iff_of_false (by simp) (by rintro ⟨hc, _⟩; norm_num at h3 hc ⊢; linarith),
      fun habs => absurd habs (by simp),
      fun _ => ⟨iff_of_true rfl h4, iff_of_false (by simp) (not_lt.mpr h4)⟩,
      fun habs => absurd habs (by simp)⟩
  · exact ⟨iff_of_false (by simp) h1,
      iff_of_true rfl h3,
      iff_of_false (by simp) (by rintro ⟨hc, _⟩; norm_num at h3 hc ⊢; linarith),
      fun habs => absurd habs (by simp),
      fun _ => ⟨iff_of_false (by simp) h4, iff_of_true rfl (not_le.mp h4)⟩,
      fun habs => absurd habs (by simp)⟩
  · exact ⟨iff_of_false (by simp) h1,
      iff_of_false (by simp) h3,
      iff_of_true rfl ⟨not_le.mp h3, not_le.mp h1⟩,
      fun habs => absurd habs (by simp),
      fun habs => absurd habs (by simp),
      fun _ => rfl⟩


/-- C2: every classify call on loaded data yields a `reactiveScore` in
`[0, 1]`, and the verdict/confidence are determined exhaustively and
exclusively by the claimed thresholds. -/
theorem claim_C2_score_range_and_verdict (d : LoadedData) (ev : Event) (o : Option ℤ) :
    ∃ a, classify (some d) ev o = .ok a ∧
      (0 ≤ a.classification.reactiveScore ∧ a.classification.reactiveScore ≤ 1) ∧
      (a.classification.verdict = "reactive" ↔
        (0.65 : ℚ) ≤ a.classification.reactiveScore) ∧
      (a.classification.verdict = "pre-planned" ↔
        a.classification.reactiveScore ≤ (0.35 : ℚ)) ∧
      (a.classification.verdict = "mixed" ↔
        ((0.35 : ℚ) < a.classification.reactiveScore ∧
          a.classification.reactiveScore < (0.65 : ℚ))) ∧
      (a.classification.verdict = "reactive" →
        ((a.classification.confidence = "high" ↔
            (0.8 : ℚ) ≤ a.classification.reactiveScore) ∧
          (a.classification.confidence = "medium" ↔
            a.classification.reactiveScore < (0.8 : ℚ)))) ∧
      (a.classification.verdict = "pre-planned" →
        ((a.classification.confidence = "high" ↔
            a.classification.reactiveScore ≤ (0.2 : ℚ)) ∧
          (a.classification.confidence = "medium" ↔
            (0.2 : ℚ) < a.classification.reactiveScore))) ∧
      (a.classification.verdict = "mixed" → a.classification.confidence = "low") := by
  refine ⟨_, rfl, ?_, ?_, ?_, ?_, ?_, ?_, ?_⟩
  · exact calculateClassification_score_bounds _
      (temporal_score_defined_bounded
        (Utils.getWindowData ev.date (resolveWindowSize o) d.baselineMap))
      (buildup_score_bounded
        (Utils.getWindowData ev.date (resolveWindowSize o) d.baselineMap)
        (Utils.getBaselineStats ev.date 30 d.baselineMap))
      (magnitude_score_bounded d ev
        (Utils.getWindowData ev.date (resolveWindowSize o) d.baselineMap)
        (Utils.getBaselineStats ev.date 30 d.baselineMap) none)
      (symbolic_score_bounded d ev.date)
      (pattern_score_bounded
        (Utils.getWindowData ev.date (resolveWindowSize o) d.baselineMap))
  · exact (calculateClassification_verdict _).1
  · exact (calculateClassification_verdict _).2.1
  · exact (calculateClassification_verdict _).2.2.1
  · exact (calculateClassification_verdict _).2.2.2.1
  · exact (calculateClassification_verdict _).2.2.2.2.1
  · exact (calculateClassification_verdict _).2.2.2.2.2


/-- C2, witness: the instantiated statement at a concrete loaded catalog
(where the score works out to exactly 0.65 and the verdict to reactive). -/
theorem claim_C2_witness :
    ∃ a, classify (some typicalCatalog) typicalEvent (some 3) = .ok a ∧
      (0 ≤ a.classification.reactiveScore ∧ a.classification.reactiveScore ≤ 1) ∧
      (a.classification.verdict = "reactive" ↔
        (0.65 : ℚ) ≤ a.classification.reactiveScore) ∧
      (a.classification.verdict = "pre-planned" ↔
        a.classification.reactiveScore ≤ (0.35 : ℚ)) ∧
      (a.classification.verdict = "mixed" ↔
        ((0.35 : ℚ) < a.classification.reactiveScore ∧
          a.classification.reactiveScore < (0.65 : ℚ))) ∧
      (a.classification.verdict = "reactive" →
        ((a.classification.confidence = "high" ↔
            (0.8 : ℚ) ≤ a.classification.reactiveScore) ∧
          (a.classification.confidence = "medium" ↔
            a.classification.reactiveScore < (0.8 : ℚ)))) ∧
      (a.classification.verdict = "pre-planned" →
        ((a.classification.confidence = "high" ↔
            a.classification.reactiveScore ≤ (0.2 : ℚ)) ∧
          (a.classification.confidence = "medium" ↔
            (0.2 : ℚ) < a.classification.reactiveScore))) ∧
      (a.classification.verdict = "mixed" → a.classification.confidence = "low") :=
  claim_C2_score_range_and_verdict typicalCatalog typicalEvent (some 3)

end

end ADIZ
